import Mathlib

/-!
Verification of the VibeStream GPS telemetry pipeline (Go sources:
`producer/main.go`, `consumer/main.go`).

Shallow embedding conventions:
* Go `float64` values are modelled as exact rationals (`ℚ`);
* `math/rand.Float64()` draws are modelled as a stream `rs : Nat → ℚ` of
  values assumed in `[0, 1)`, and `rand.Intn` draws as a stream of naturals;
* JSON documents are an inductive `Json` type; `encoding/json` marshalling
  and unmarshalling of `CoordinateEvent` are explicit functions on it;
* the SQLite `coordinates` table is a list of rows, appended in insert order;
  `ORDER BY timestamp DESC` is insertion sort by the (string) timestamp
  column, descending, and `LIMIT` is `List.take`;
* fallible library calls whose outcome the Go code branches on (Kafka
  `Produce`, SQLite `Exec`, `json.Marshal`) are given their outcome as an
  explicit boolean/`Option` input.
-/

namespace VibeStream

/-- Structure `Location` from `producer/main.go`: a geographical point. -/
structure Location where
  lat : ℚ
  lon : ℚ
  deriving Repr, DecidableEq

/-- Structure `User` from `producer/main.go`: a simulated user with a fixed base. -/
structure User where
  id : String
  name : String
  base : Location
  deriving Repr, DecidableEq

/-- Structure `CoordinateEvent` from `producer/main.go` / `consumer/main.go`. -/
structure CoordinateEvent where
  user_id : String
  session_id : String
  lat : ℚ
  lon : ℚ
  timestamp : String
  deriving Repr, DecidableEq

/-- Structure `LocationEvent` from `producer/main.go`. -/
structure LocationEvent where
  user_id : String
  session_id : String
  location : String
  lat : ℚ
  lon : ℚ
  timestamp : String
  deriving Repr, DecidableEq

/-- The fixed roster `users` from `producer/main.go`. -/
def users : List User :=
  [ { id := "Ashish", name := "Ashish", base := { lat := 40.7128, lon := -74.0060 } },
    { id := "Saranya", name := "Saranya", base := { lat := 34.0522, lon := -118.2437 } },
    { id := "Cookie", name := "Cookie", base := { lat := 51.5074, lon := -0.1278 } } ]

/-- The fixed label set `locations` from `producer/main.go`. -/
def locations : List String := ["Park", "Trailhead", "Downtown", "Beach"]

/-- Function `generateCoordinate` from `producer/main.go`: simulates small random
movement around the base location; `r1`, `r2` are the two `rand.Float64()`
draws (each in `[0,1)`). -/
def generateCoordinate (base : Location) (r1 r2 : ℚ) : Location :=
  { lat := base.lat + r1 * 0.02 - 0.01,
    lon := base.lon + r2 * 0.02 - 0.01 }

/-- The body of one roster pass of `generateEvents` from `producer/main.go`:
for each user, in roster order, draw two `rand.Float64()` values for the
coordinate, build the `CoordinateEvent` (session `"s1"`, timestamp `now`),
then draw a third `rand.Float64()`; when it is below `0.1` additionally
build a `LocationEvent` with a label chosen by a `rand.Intn` draw.
`rs` is the `rand.Float64()` stream (index `i` is the next draw), `ns` the
`rand.Intn` stream (index `j`). -/
def rosterPassAux (rs : Nat → ℚ) (ns : Nat → Nat) (now : String) :
    Nat → Nat → List User → List (CoordinateEvent × Option LocationEvent)
  | _, _, [] => []
  | i, j, u :: rest =>
    let pos := generateCoordinate u.base (rs i) (rs (i + 1))
    let ce : CoordinateEvent :=
      { user_id := u.id, session_id := "s1", lat := pos.lat, lon := pos.lon,
        timestamp := now }
    if rs (i + 2) < 0.1 then
      (ce, some { user_id := u.id, session_id := "s1",
                  location := locations.getD (ns j % locations.length) "",
                  lat := pos.lat, lon := pos.lon, timestamp := now })
        :: rosterPassAux rs ns now (i + 3) (j + 1) rest
    else
      (ce, none) :: rosterPassAux rs ns now (i + 3) j rest

/-- One full roster pass (one tick) of `generateEvents`, over the whole
roster, starting from the front of both random streams. -/
def rosterPass (rs : Nat → ℚ) (ns : Nat → Nat) (now : String) :
    List (CoordinateEvent × Option LocationEvent) :=
  rosterPassAux rs ns now 0 0 users

/-- The `for { select { case <-done: return; default: ... } }` loop of
`generateEvents` from `producer/main.go`: at the top of each iteration the
`done` channel is checked (and only there); if the stop signal has been
delivered the loop returns, otherwise a full roster pass is emitted and the
loop repeats after the inter-tick sleep.  `done t` says whether the stop
signal has been delivered by the start of iteration `t`; `passAt t` is the
roster pass the iteration would emit (its random draws and timestamp);
`fuel` bounds the number of iterations modelled. -/
def genLoop (done : Nat → Bool)
    (passAt : Nat → List (CoordinateEvent × Option LocationEvent)) :
    Nat → Nat → List (List (CoordinateEvent × Option LocationEvent))
  | 0, _ => []
  | fuel + 1, t => if done t then [] else passAt t :: genLoop done passAt fuel (t + 1)

/-- JSON documents, as produced and consumed by `encoding/json`. -/
inductive Json where
  | null : Json
  | bool : Bool → Json
  | num : ℚ → Json
  | str : String → Json
  | arr : List Json → Json
  | obj : List (String × Json) → Json

/-- Go `json.Marshal` of a producer-side `CoordinateEvent`
(`producer/main.go`): every field is emitted, keys in struct order, per the
`json:"..."` tags. -/
def marshalCoordinateEvent (e : CoordinateEvent) : Json :=
  .obj [("user_id", .str e.user_id), ("session_id", .str e.session_id),
        ("lat", .num e.lat), ("lon", .num e.lon), ("timestamp", .str e.timestamp)]

/-- Key lookup as `json.Unmarshal` performs it: object members are processed
in order and a later duplicate key overwrites an earlier one, so the last
binding of a key wins. -/
def lookupLast (fs : List (String × Json)) (k : String) : Option Json :=
  (fs.reverse.find? (fun p => p.1 = k)).map (fun p => p.2)

/-- Decoding one string-typed struct field, as `json.Unmarshal` does: a
missing key or a JSON `null` leaves the zero value `""`; a present value of
any non-string type is an error. -/
def getStrField (fs : List (String × Json)) (k : String) : Option String :=
  match lookupLast fs k with
  | none => some ""
  | some (.str s) => some s
  | some .null => some ""
  | some _ => none

/-- Decoding one `float64`-typed struct field, as `json.Unmarshal` does: a
missing key or a JSON `null` leaves the zero value `0`; a present value of
any non-number type is an error. -/
def getNumField (fs : List (String × Json)) (k : String) : Option ℚ :=
  match lookupLast fs k with
  | none => some 0
  | some (.num q) => some q
  | some .null => some 0
  | some _ => none

/-- Go `json.Unmarshal` of a message value into a `CoordinateEvent`
(`consumer/main.go`): the document must be an object (or `null`, which
leaves the struct at its zero value); each tagged field is decoded with
Go's missing-key/`null`/type-mismatch behaviour. -/
def unmarshalCoordinateEvent : Json → Option CoordinateEvent
  | .obj fs => do
    let u ← getStrField fs "user_id"
    let s ← getStrField fs "session_id"
    let la ← getNumField fs "lat"
    let lo ← getNumField fs "lon"
    let t ← getStrField fs "timestamp"
    pure { user_id := u, session_id := s, lat := la, lon := lo, timestamp := t }
  | .null => some { user_id := "", session_id := "", lat := 0, lon := 0, timestamp := "" }
  | _ => none

/-- One `*kafka.Message` iteration of the sink's consume loop
(`consumer/main.go`): unmarshal the message value as a `CoordinateEvent`;
on error log and `continue` (table unchanged); on success run the prepared
`INSERT`; if the insert errors (`insertErr`), log and `continue` (table
unchanged); otherwise the table gains exactly the one new row. -/
def consumeStep (table : List CoordinateEvent) (msgValue : Json)
    (insertErr : Bool) : List CoordinateEvent :=
  match unmarshalCoordinateEvent msgValue with
  | none => table
  | some ev => if insertErr then table else table ++ [ev]

/-- The consume loop over a finite trace of delivered messages, each paired
with whether its `INSERT` would fail: every message is processed in order
and the loop continues past per-message failures. -/
def consumeLoop (msgs : List (Json × Bool)) (table : List CoordinateEvent) :
    List CoordinateEvent :=
  msgs.foldl (fun t m => consumeStep t m.1 m.2) table

/-- Digit run to a natural number; `none` unless the list is a nonempty run
of decimal digits. -/
def digitsToNat (cs : List Char) : Option Nat :=
  if cs ≠ [] ∧ cs.all (fun c => c.isDigit) then
    some (cs.foldl (fun a c => a * 10 + (c.toNat - 48)) 0)
  else none

/-- Go's `strconv.Atoi`: an optional leading `+` or `-` sign followed by at
least one decimal digit, nothing else; values outside the 64-bit signed
integer range are an error. -/
def goAtoi (s : String) : Option Int :=
  match s.toList with
  | [] => none
  | c :: rest =>
    let signed : Bool × List Char :=
      if c = '-' then (true, rest)
      else if c = '+' then (false, rest)
      else (false, c :: rest)
    match digitsToNat signed.2 with
    | none => none
    | some n =>
      let v : Int := if signed.1 then -(n : Int) else (n : Int)
      if v < -(2 ^ 63) ∨ 2 ^ 63 ≤ v then none else some v

/-- The `limit` handling of `getEvents` (`consumer/main.go`): `limitNum`
starts at the default 50; when the `limit` query value is nonempty, parses
via `Atoi`, and is positive, it replaces the default; otherwise the default
stands. -/
def parseLimit (limit : String) : Int :=
  if limit ≠ "" then
    match goAtoi limit with
    | some n => if n > 0 then n else 50
    | none => 50
  else 50

/-- SQLite's default BINARY collation on TEXT values: byte-wise
lexicographic comparison, i.e. lexicographic order on the character
sequence for these ASCII timestamps. -/
def strLe (a b : String) : Prop := a.data ≤ b.data

instance (a b : String) : Decidable (strLe a b) :=
  inferInstanceAs (Decidable (a.data ≤ b.data))

/-- The comparison realising `ORDER BY timestamp DESC` on the TEXT
`timestamp` column: row `a` precedes row `b` when `a`'s timestamp is the
larger string. -/
def tsDesc (a b : CoordinateEvent) : Prop := strLe b.timestamp a.timestamp

instance : DecidableRel tsDesc := fun a b =>
  inferInstanceAs (Decidable (strLe b.timestamp a.timestamp))

instance : IsTotal CoordinateEvent tsDesc :=
  ⟨fun a b => (le_total b.timestamp.data a.timestamp.data).imp id id⟩

instance : IsTrans CoordinateEvent tsDesc :=
  ⟨fun _ _ _ hab hbc => le_trans (α := List Char) hbc hab⟩

/-- The SQL query of `getEvents` (`consumer/main.go`) over the modelled
table: `WHERE user_id = ?` is added only when the `user_id` query value is
nonempty; then `ORDER BY timestamp DESC LIMIT ?`. -/
def queryCoordinates (table : List CoordinateEvent) (userID : String)
    (limitNum : Int) : List CoordinateEvent :=
  (((if userID ≠ "" then table.filter (fun r => r.user_id = userID) else table)).insertionSort
      tsDesc).take limitNum.toNat

/-- Go `json.Marshal` of a consumer-side `CoordinateEvent`
(`consumer/main.go`): as the producer side, except `session_id` carries
`omitempty` and is dropped when it is the empty string. -/
def marshalConsumerEvent (e : CoordinateEvent) : Json :=
  .obj ([("user_id", .str e.user_id)]
    ++ (if e.session_id = "" then [] else [("session_id", .str e.session_id)])
    ++ [("lat", .num e.lat), ("lon", .num e.lon), ("timestamp", .str e.timestamp)])

/-- An HTTP response: status code and JSON body. -/
structure EventsResponse where
  status : Nat
  body : Json

/-- The `getEvents` handler (`consumer/main.go`) given the two extracted
query values (`r.URL.Query().Get("user_id")`, `...Get("limit")`): runs the
query and encodes the collected `events` slice — initialised to the empty
slice, so an empty result encodes as `[]`, never `null` — with status 200. -/
def getEvents (table : List CoordinateEvent) (userID limit : String) :
    EventsResponse :=
  { status := 200,
    body := .arr ((queryCoordinates table userID (parseLimit limit)).map
      marshalConsumerEvent) }

/-- Go `url.Values.Get`: the first value bound to the key, or `""` when the
key is absent. -/
def queryGet (params : List (String × String)) (k : String) : String :=
  (((params.filter (fun p => p.1 = k)).head?).map (fun p => p.2)).getD ""

/-- Handler `getEvents` on a full query string (a list of key/value pairs): the
handler reads only the `user_id` and `limit` values. -/
def getEventsRequest (table : List CoordinateEvent)
    (params : List (String × String)) : EventsResponse :=
  getEvents table (queryGet params "user_id") (queryGet params "limit")

/-- HTTP methods (only `POST` is distinguished by the ingress handler). -/
inductive Method where
  | get | post | put | delete | other
  deriving Repr, DecidableEq

/-- A plain-text HTTP response from the ingress handler. -/
structure ProduceResponse where
  status : Nat
  body : String
  deriving Repr, DecidableEq

/-- The `POST /produce` handler (`producer/main.go`).  Inputs: the request
method; the result of `json.NewDecoder(r.Body).Decode` (`none` = malformed
body); `now` (used when the decoded event has an empty timestamp);
`marshalErr` / `produceErr`, the outcomes of the `json.Marshal` and
`producer.Produce` calls that the handler branches on; and `delivered`,
whether delivery was confirmed within the `Flush(1000)` window — a value
the Go code never inspects, since `Flush`'s return is discarded.  Returns
the response and the message value published to the `coordinates` topic
(`none` when nothing was published). -/
def produceHandler (method : Method) (decoded : Option CoordinateEvent)
    (now : String) (marshalErr : Bool) (produceErr : Bool) (delivered : Bool) :
    ProduceResponse × Option Json :=
  if method ≠ Method.post then ({ status := 405, body := "POST only" }, none)
  else
    match decoded with
    | none => ({ status := 400, body := "Invalid JSON" }, none)
    | some ev0 =>
      let event := if ev0.timestamp = "" then { ev0 with timestamp := now } else ev0
      if marshalErr then ({ status := 500, body := "Error serializing event" }, none)
      else if produceErr then ({ status := 500, body := "Error producing message" }, none)
      else ({ status := 200, body := "ok" }, some (marshalCoordinateEvent event))

/-! ## Helper lemmas -/

/-- Both offsets applied by `generateCoordinate` stay within `±0.01` when
the random draws lie in `[0, 1)`. -/
theorem generateCoordinate_bound (base : Location) (r1 r2 : ℚ)
    (h1 : 0 ≤ r1) (h1' : r1 < 1) (h2 : 0 ≤ r2) (h2' : r2 < 1) :
    |(generateCoordinate base r1 r2).lat - base.lat| ≤ 0.01 ∧
      |(generateCoordinate base r1 r2).lon - base.lon| ≤ 0.01 := by
  unfold generateCoordinate
  constructor <;> simp only [] <;> rw [abs_le] <;> constructor <;> nlinarith

/-- Every roster pass pairs its output with the roster one-to-one: the
`k`-th emitted coordinate event is for the `k`-th user, computed by
`generateCoordinate` from that user's base. -/
theorem rosterPassAux_forall₂ (rs : Nat → ℚ) (ns : Nat → Nat) (now : String)
    (hr : ∀ k, 0 ≤ rs k ∧ rs k < 1) :
    ∀ (l : List User) (i j : Nat),
      List.Forall₂
        (fun (p : CoordinateEvent × Option LocationEvent) (u : User) =>
          |p.1.lat - u.base.lat| ≤ 0.01 ∧ |p.1.lon - u.base.lon| ≤ 0.01)
        (rosterPassAux rs ns now i j l) l
  | [], _, _ => List.Forall₂.nil
  | u :: rest, i, j => by
    have hb := generateCoordinate_bound u.base (rs i) (rs (i + 1))
      (hr i).1 (hr i).2 (hr (i + 1)).1 (hr (i + 1)).2
    unfold rosterPassAux
    by_cases hc : rs (i + 2) < 0.1
    · simp only [hc, if_true]
      exact List.Forall₂.cons hb (rosterPassAux_forall₂ rs ns now hr rest (i + 3) (j + 1))
    · simp only [hc, if_false]
      exact List.Forall₂.cons hb (rosterPassAux_forall₂ rs ns now hr rest (i + 3) j)

/-- A roster pass emits coordinate events for exactly the users of the
processed list, in order. -/
theorem rosterPassAux_map_userId (rs : Nat → ℚ) (ns : Nat → Nat) (now : String) :
    ∀ (l : List User) (i j : Nat),
      (rosterPassAux rs ns now i j l).map (fun p => p.1.user_id) = l.map User.id
  | [], _, _ => rfl
  | u :: rest, i, j => by
    unfold rosterPassAux
    by_cases hc : rs (i + 2) < 0.1
    · simpa [hc] using rosterPassAux_map_userId rs ns now rest (i + 3) (j + 1)
    · simpa [hc] using rosterPassAux_map_userId rs ns now rest (i + 3) j

/-- Every pass the generator loop emits is one of the supplied full passes. -/
theorem genLoop_mem (done : Nat → Bool)
    (passAt : Nat → List (CoordinateEvent × Option LocationEvent)) :
    ∀ (fuel t : Nat) (p : List (CoordinateEvent × Option LocationEvent)),
      p ∈ genLoop done passAt fuel t → ∃ s, p = passAt s
  | 0, _, _, h => absurd h (List.not_mem_nil _)
  | fuel + 1, t, p, h => by
    unfold genLoop at h
    by_cases hd : done t
    · simp [hd] at h
    · simp only [hd, if_neg] at h
      rcases List.mem_cons.mp h with h | h
      · exact ⟨t, h⟩
      · exact genLoop_mem done passAt fuel (t + 1) p h

/-- Once the stop signal has been delivered (at iteration `k`), the loop
started at iteration `t ≤ k` emits at most `k - t` passes: it terminates no
later than the first iteration that observes the signal. -/
theorem genLoop_length_le (done : Nat → Bool)
    (passAt : Nat → List (CoordinateEvent × Option LocationEvent)) :
    ∀ (fuel t k : Nat), t ≤ k → done k = true →
      (genLoop done passAt fuel t).length ≤ k - t
  | 0, _, _, _, _ => by simp [genLoop]
  | fuel + 1, t, k, htk, hk => by
    unfold genLoop
    by_cases hd : done t = true
    · simp [hd]
    · have hd' : done t = false := by simpa using hd
      have htk' : t + 1 ≤ k := by
        rcases lt_or_eq_of_le htk with h | h
        · omega
        · exact absurd (h ▸ hk) (by simp [hd'])
      have ih := genLoop_length_le done passAt fuel (t + 1) k htk' hk
      simp only [hd', Bool.false_eq_true, if_false, List.length_cons]
      omega

/-! ## Claims -/

/-- C1: for every simulated user and every generated coordinate of a tick,
the emitted position differs from that user's fixed base by at most `0.01`
degrees in each axis, the offset being a uniform draw in `[0,1)` scaled by
`0.02` and shifted by `-0.01`, recomputed from the immutable base on every
tick. -/
theorem coordinates_within_base_bounds (rs : Nat → ℚ) (ns : Nat → Nat)
    (now : String) (hr : ∀ k, 0 ≤ rs k ∧ rs k < 1) :
    List.Forall₂
      (fun (p : CoordinateEvent × Option LocationEvent) (u : User) =>
        |p.1.lat - u.base.lat| ≤ 0.01 ∧ |p.1.lon - u.base.lon| ≤ 0.01)
      (rosterPass rs ns now) users :=
  rosterPassAux_forall₂ rs ns now hr users 0 0

/-- Witness for C1: a concrete run (all draws `1/2`) generates, for every
roster user, a coordinate within `0.01` of that user's base. -/
theorem coordinates_within_base_bounds_witness :
    List.Forall₂
      (fun (p : CoordinateEvent × Option LocationEvent) (u : User) =>
        |p.1.lat - u.base.lat| ≤ 0.01 ∧ |p.1.lon - u.base.lon| ≤ 0.01)
      (rosterPass (fun _ => 1/2) (fun _ => 0) "2024-01-01T00:00:00Z") users :=
  coordinates_within_base_bounds (fun _ => 1/2) (fun _ => 0)
    "2024-01-01T00:00:00Z" (fun _ => by norm_num)

/-- C6: every completed tick emits exactly one `CoordinateEvent` per roster
user, iterating the roster in roster order, unconditionally for each user:
the emitted events' user ids are exactly the roster's ids, in order. -/
theorem tick_one_coordinate_event_per_user (rs : Nat → ℚ) (ns : Nat → Nat)
    (now : String) :
    (rosterPass rs ns now).map (fun p => p.1.user_id) = users.map User.id ∧
      (rosterPass rs ns now).length = users.length := by
  have h := rosterPassAux_map_userId rs ns now users 0 0
  refine ⟨h, ?_⟩
  have := congrArg List.length h
  simpa using this

/-- C7: the stop signal is checked only at the top of each full roster
pass, so every emitted pass covers the whole roster, and once the signal
has been delivered (by iteration `k`) the loop emits no further pass: at
most `k` passes come out of a loop started at iteration `0`. -/
theorem genLoop_stops_between_full_passes (done : Nat → Bool)
    (rsAt : Nat → Nat → ℚ) (nsAt : Nat → Nat → Nat) (nowAt : Nat → String)
    (fuel : Nat) :
    (∀ p ∈ genLoop done (fun t => rosterPass (rsAt t) (nsAt t) (nowAt t)) fuel 0,
        p.length = users.length) ∧
      ∀ k, done k = true →
        (genLoop done (fun t => rosterPass (rsAt t) (nsAt t) (nowAt t)) fuel 0).length ≤ k := by
  constructor
  · intro p hp
    obtain ⟨s, rfl⟩ :=
      genLoop_mem done (fun t => rosterPass (rsAt t) (nsAt t) (nowAt t)) fuel 0 p hp
    exact (tick_one_coordinate_event_per_user (rsAt s) (nsAt s) (nowAt s)).2
  · intro k hk
    simpa using
      genLoop_length_le done (fun t => rosterPass (rsAt t) (nsAt t) (nowAt t))
        fuel 0 k (Nat.zero_le k) hk

/-- Witness for C7: with the stop signal delivered by iteration 2, a
concrete loop run emits at most 2 passes. -/
theorem genLoop_stops_between_full_passes_witness :
    (genLoop (fun t => decide (2 ≤ t))
        (fun _ => rosterPass (fun _ => 1/2) (fun _ => 0) "t")
        5 0).length ≤ 2 :=
  (genLoop_stops_between_full_passes (fun t => decide (2 ≤ t))
      (fun _ _ => 1/2) (fun _ _ => 0) (fun _ => "t") 5).2 2 (by decide)

/-- Producer-side marshalling and consumer-side unmarshalling of a
`CoordinateEvent` are mutually inverse. -/
theorem unmarshal_marshal (e : CoordinateEvent) :
    unmarshalCoordinateEvent (marshalCoordinateEvent e) = some e := rfl

/-- C2: publishing a well-formed `CoordinateEvent` (JSON-serializing it on
the producer side) and then consuming it (deserializing on the sink side
and inserting one row) yields a stored row whose `userId`, `sessionId`,
`lat`, `lon` and `timestampUtc` are identical to the published event's. -/
theorem publish_consume_round_trip (e : CoordinateEvent)
    (table : List CoordinateEvent) :
    ∃ row, consumeLoop [(marshalCoordinateEvent e, false)] table = table ++ [row]
      ∧ row.user_id = e.user_id ∧ row.session_id = e.session_id
      ∧ row.lat = e.lat ∧ row.lon = e.lon ∧ row.timestamp = e.timestamp := by
  refine ⟨e, ?_, rfl, rfl, rfl, rfl, rfl⟩
  simp [consumeLoop, consumeStep, unmarshal_marshal]

/-- C3 counterexample: the claim requires `200 "ok"` only on
accepted-and-confirmed delivery, but the handler answers `200 "ok"` in a
run where delivery was never confirmed within the flush window (`delivered
= false`): the `Flush(1000)` result is discarded, so confirmation is not
required for the `200`. -/
theorem produce_ok_without_delivery_confirmation :
    (produceHandler Method.post
        (some { user_id := "u1", session_id := "s1", lat := 10, lon := 20,
                timestamp := "2024-01-01T00:00:00Z" })
        "2024-01-02T00:00:00Z" false false false).1
      = { status := 200, body := "ok" } := rfl

/-- C3 (amended): a non-POST request is answered 405; a POST whose body
does not decode is answered 400 with nothing published; a serialization or
publish failure is answered 500 with nothing published; otherwise the event
(timestamp defaulted to `now` when absent) is published and the response is
`200 "ok"` once the event is accepted (enqueued) — the bounded flush wait's
outcome is ignored, so the response never depends on whether delivery was
confirmed. -/
theorem produceHandler_spec (method : Method) (decoded : Option CoordinateEvent)
    (now : String) (marshalErr produceErr delivered : Bool) :
    (method ≠ Method.post →
      produceHandler method decoded now marshalErr produceErr delivered
        = ({ status := 405, body := "POST only" }, none))
    ∧ (method = Method.post → decoded = none →
      produceHandler method decoded now marshalErr produceErr delivered
        = ({ status := 400, body := "Invalid JSON" }, none))
    ∧ (∀ ev, method = Method.post → decoded = some ev → marshalErr = true →
      produceHandler method decoded now marshalErr produceErr delivered
        = ({ status := 500, body := "Error serializing event" }, none))
    ∧ (∀ ev, method = Method.post → decoded = some ev → marshalErr = false →
      produceErr = true →
      produceHandler method decoded now marshalErr produceErr delivered
        = ({ status := 500, body := "Error producing message" }, none))
    ∧ (∀ ev, method = Method.post → decoded = some ev → marshalErr = false →
      produceErr = false →
      produceHandler method decoded now marshalErr produceErr delivered
        = ({ status := 200, body := "ok" },
           some (marshalCoordinateEvent
             (if ev.timestamp = "" then { ev with timestamp := now } else ev))))
    ∧ produceHandler method decoded now marshalErr produceErr delivered
        = produceHandler method decoded now marshalErr produceErr true := by
  refine ⟨?_, ?_, ?_, ?_, ?_, rfl⟩
  · intro h; simp [produceHandler, h]
  · rintro h rfl; simp [produceHandler, h]
  · rintro ev h rfl hm; simp [produceHandler, h, hm]
  · rintro ev h rfl hm hp; simp [produceHandler, h, hm, hp]
  · rintro ev h rfl hm hp; simp [produceHandler, h, hm, hp]

/-- Witness for C3 (amended): concrete runs through each branch of the
handler. -/
theorem produceHandler_spec_witness :
    produceHandler Method.get none "now" false false false
        = ({ status := 405, body := "POST only" }, none)
      ∧ produceHandler Method.post none "now" false false false
        = ({ status := 400, body := "Invalid JSON" }, none)
      ∧ produceHandler Method.post
          (some { user_id := "u1", session_id := "s1", lat := 10, lon := 20,
                  timestamp := "" }) "2024-01-02T00:00:00Z" false true false
        = ({ status := 500, body := "Error producing message" }, none) :=
  ⟨(produceHandler_spec Method.get none "now" false false false).1 (by decide),
   (produceHandler_spec Method.post none "now" false false false).2.1 rfl rfl,
   (produceHandler_spec Method.post
       (some { user_id := "u1", session_id := "s1", lat := 10, lon := 20,
               timestamp := "" }) "2024-01-02T00:00:00Z" false true false).2.2.2.1
     _ rfl rfl rfl rfl⟩

/-- C5: for every message observed by the consume loop, a deserialization
failure leaves the table unchanged; a successful deserialization inserts
exactly one row; a failed insertion leaves the table unchanged; and in all
cases the loop continues with the subsequent messages. -/
theorem consume_loop_per_message (table : List CoordinateEvent) (msg : Json)
    (insertErr : Bool) :
    (unmarshalCoordinateEvent msg = none →
      consumeStep table msg insertErr = table)
    ∧ (∀ ev, unmarshalCoordinateEvent msg = some ev → insertErr = false →
      consumeStep table msg insertErr = table ++ [ev])
    ∧ (∀ ev, unmarshalCoordinateEvent msg = some ev → insertErr = true →
      consumeStep table msg insertErr = table)
    ∧ ∀ rest, consumeLoop ((msg, insertErr) :: rest) table
        = consumeLoop rest (consumeStep table msg insertErr) := by
  refine ⟨?_, ?_, ?_, fun rest => rfl⟩
  · intro h; simp [consumeStep, h]
  · intro ev h hi; simp [consumeStep, h, hi]
  · intro ev h hi; simp [consumeStep, h, hi]

/-- Witness for C5: a malformed payload (a JSON string, not an object) is
skipped, and a valid payload with a failing insert is dropped, each leaving
a concrete table unchanged. -/
theorem consume_loop_per_message_witness :
    consumeStep [] (Json.str "oops") false = []
      ∧ consumeStep []
          (marshalCoordinateEvent
            { user_id := "u1", session_id := "s1", lat := 1, lon := 2,
              timestamp := "2024-01-01T00:00:00Z" }) true = [] :=
  ⟨(consume_loop_per_message [] (Json.str "oops") false).1 rfl,
   (consume_loop_per_message []
       (marshalCoordinateEvent
         { user_id := "u1", session_id := "s1", lat := 1, lon := 2,
           timestamp := "2024-01-01T00:00:00Z" }) true).2.2.1 _ rfl rfl⟩

/-- C4: a `GET /events` response contains at most `limit` rows, where the
limit defaults to 50 when the parameter is absent and is the parsed value
when it is a positive integer; when the `user_id` filter is given, every
returned row's `user_id` equals it; and the rows are ordered
most-recent-first by timestamp. -/
theorem getEvents_limit_filter_order (table : List CoordinateEvent)
    (userID limit : String) :
    (queryCoordinates table userID (parseLimit limit)).length
        ≤ (parseLimit limit).toNat
    ∧ (limit = "" → parseLimit limit = 50)
    ∧ (∀ n : Int, goAtoi limit = some n → 0 < n → parseLimit limit = n)
    ∧ (userID ≠ "" →
        ∀ r ∈ queryCoordinates table userID (parseLimit limit), r.user_id = userID)
    ∧ (queryCoordinates table userID (parseLimit limit)).Pairwise tsDesc
    ∧ getEvents table userID limit
        = { status := 200,
            body := Json.arr ((queryCoordinates table userID
              (parseLimit limit)).map marshalConsumerEvent) } := by
  refine ⟨List.length_take_le _ _, ?_, ?_, ?_, ?_, rfl⟩
  · intro h; subst h; rfl
  · intro n hn hpos
    have hne : limit ≠ "" := by
      intro h; subst h; simp [goAtoi] at hn
    simp [parseLimit, hne, hn, hpos]
  · intro hu r hr
    simp only [queryCoordinates] at hr
    have h1 := List.mem_of_mem_take hr
    rw [List.mem_insertionSort, if_pos hu] at h1
    exact of_decide_eq_true (List.mem_filter.mp h1).2
  · have hs :
        ((if userID ≠ "" then table.filter (fun r => r.user_id = userID)
          else table).insertionSort tsDesc).Pairwise tsDesc :=
      List.sorted_insertionSort tsDesc _
    exact hs.sublist (List.take_sublist _ _)

/-- Witness for C4: on a concrete three-row table, `user_id=u1&limit=1`
returns at most one row and only rows for `u1`. -/
theorem getEvents_limit_filter_order_witness :
    (queryCoordinates
        [{ user_id := "u1", session_id := "s1", lat := 1, lon := 1,
           timestamp := "2024-01-01T00:00:01Z" },
         { user_id := "u1", session_id := "s1", lat := 2, lon := 2,
           timestamp := "2024-01-01T00:00:02Z" },
         { user_id := "u2", session_id := "s1", lat := 3, lon := 3,
           timestamp := "2024-01-01T00:00:03Z" }] "u1" (parseLimit "1")).length
        ≤ (parseLimit "1").toNat
      ∧ ∀ r ∈ queryCoordinates
          [{ user_id := "u1", session_id := "s1", lat := 1, lon := 1,
             timestamp := "2024-01-01T00:00:01Z" },
           { user_id := "u1", session_id := "s1", lat := 2, lon := 2,
             timestamp := "2024-01-01T00:00:02Z" },
           { user_id := "u2", session_id := "s1", lat := 3, lon := 3,
             timestamp := "2024-01-01T00:00:03Z" }] "u1" (parseLimit "1"),
          r.user_id = "u1" :=
  ⟨(getEvents_limit_filter_order _ "u1" "1").1,
   (getEvents_limit_filter_order _ "u1" "1").2.2.2.1 (by decide)⟩

/-- C8: when no stored row matches the filters, the response is HTTP 200
with an empty JSON array — not `null` and not an error response. -/
theorem getEvents_no_match_empty_array (table : List CoordinateEvent)
    (userID limit : String)
    (h : (if userID ≠ "" then table.filter (fun r => r.user_id = userID)
          else table) = []) :
    getEvents table userID limit = { status := 200, body := Json.arr [] }
      ∧ Json.arr [] ≠ Json.null := by
  refine ⟨?_, fun hc => Json.noConfusion hc⟩
  simp [getEvents, queryCoordinates, h, List.insertionSort]

/-- Witness for C8: a table with a single `u2` row and the filter
`user_id=u1` yields status 200 and the empty JSON array. -/
theorem getEvents_no_match_empty_array_witness :
    getEvents
        [{ user_id := "u2", session_id := "s1", lat := 1, lon := 1,
           timestamp := "2024-01-01T00:00:01Z" }] "u1" ""
      = { status := 200, body := Json.arr [] } :=
  (getEvents_no_match_empty_array
      [{ user_id := "u2", session_id := "s1", lat := 1, lon := 1,
         timestamp := "2024-01-01T00:00:01Z" }] "u1" "" (by decide)).1

/-- C9: the query endpoint is deterministic in the store and the two query
parameters: with a fixed table and equal extracted `user_id` and `limit`
values, two executions return identical responses (the handler reads
nothing else from the request). -/
theorem getEvents_deterministic (table : List CoordinateEvent)
    (p q : List (String × String))
    (hu : queryGet p "user_id" = queryGet q "user_id")
    (hl : queryGet p "limit" = queryGet q "limit") :
    getEventsRequest table p = getEventsRequest table q := by
  unfold getEventsRequest
  rw [hu, hl]

/-- Witness for C9: two syntactically different query strings carrying the
same `user_id` and `limit` values get the same response. -/
theorem getEvents_deterministic_witness :
    getEventsRequest [] [("user_id", "u1"), ("limit", "2")]
      = getEventsRequest [] [("limit", "2"), ("x", "y"), ("user_id", "u1")] :=
  getEvents_deterministic [] [("user_id", "u1"), ("limit", "2")]
    [("limit", "2"), ("x", "y"), ("user_id", "u1")] (by decide) (by decide)

/-- C10: a `limit` parameter that is not the decimal representation of a
positive integer (`"0"`, `"-5"`, `"abc"`, ...) is not rejected: the
response is exactly the one for an absent `limit`, with the default 50
applied. -/
theorem invalid_limit_uses_default (table : List CoordinateEvent)
    (userID limit : String)
    (h : ∀ n : Int, goAtoi limit = some n → n ≤ 0) :
    getEvents table userID limit = getEvents table userID ""
      ∧ parseLimit limit = 50 := by
  have h50 : parseLimit limit = 50 := by
    unfold parseLimit
    by_cases hne : limit ≠ ""
    · rw [if_pos hne]
      cases hg : goAtoi limit with
      | none => rfl
      | some n =>
        have hn := h n hg
        simp only [hg]
        rw [if_neg (by omega)]
    · rw [if_neg hne]
  refine ⟨?_, h50⟩
  unfold getEvents
  rw [h50, show parseLimit "" = 50 from rfl]

/-- Witness for C10: `limit=abc` behaves exactly as an absent `limit` on a
concrete table. -/
theorem invalid_limit_uses_default_witness :
    getEvents
        [{ user_id := "u1", session_id := "s1", lat := 1, lon := 1,
           timestamp := "2024-01-01T00:00:01Z" }] "" "abc"
      = getEvents
        [{ user_id := "u1", session_id := "s1", lat := 1, lon := 1,
           timestamp := "2024-01-01T00:00:01Z" }] "" ""
      ∧ parseLimit "abc" = 50 :=
  invalid_limit_uses_default _ "" "abc"
    (fun n hn => absurd hn (by simp [show goAtoi "abc" = none from by decide]))

end VibeStream
